import Mathlib

/-!
Verification development for the FusionFlow infusion-monitoring firmware.

The definitions below are a shallow embedding of the C++ sources:
`float` arithmetic is modelled over `ℚ` (the claims settled here concern
control flow, guards and clamps, not rounding), 32-bit `unsigned long`
millisecond counters are modelled as `Nat` with explicit wrap-around
subtraction, and NaN/Inf sensor readings are modelled by explicit flags.
Every definition is translated from a concrete source function, named
after it where Lean allows.
-/

namespace FusionFlow

/-- Operator-visible system state (`enum class SystemState` in the main
firmware file). -/
inductive SystemState where
  | INITIALIZING
  | INIT_ERROR
  | NORMAL
  | INFUSION_ERROR
  | FAST_CONVERGENCE
  | COMPLETED
deriving DecidableEq, Repr

open SystemState

/-- 32-bit wrap-around subtraction `a - b` on `unsigned long` millisecond
counters (ESP32 `unsigned long` is 32 bits). For `b ≤ a < 2^32` this is
ordinary subtraction. -/
def u32sub (a b : Nat) : Nat :=
  (a + (2 ^ 32 - b % 2 ^ 32)) % 2 ^ 32

/-- A raw `float` sensor reading: `nan`/`inf` model the IEEE special
values tested by `isnan`/`isinf`; `val` is the numeric value otherwise. -/
structure Reading where
  nan : Bool
  inf : Bool
  val : ℚ
deriving DecidableEq, Repr

/-! ### Weight Kalman filter (`WeightKalmanFilter.cpp`, three-state) -/

/-- State of `WeightKalmanFilter`: state vector `x_state[3]`, covariance
`P_cov[3][3]`, and the noise parameters. -/
structure WKF where
  x0 : ℚ
  x1 : ℚ
  x2 : ℚ
  p00 : ℚ
  p01 : ℚ
  p02 : ℚ
  p10 : ℚ
  p11 : ℚ
  p12 : ℚ
  p20 : ℚ
  p21 : ℚ
  p22 : ℚ
  sigma_a : ℚ
  sigma_j : ℚ
  R : ℚ
deriving DecidableEq, Repr

/-- `WeightKalmanFilter::init`: set the state vector, reset `P_cov` to
diag(1, 1, 0.1). -/
def wkfInit (f : WKF) (initial_weight initial_velocity initial_acceleration : ℚ) : WKF :=
  { f with
    x0 := initial_weight, x1 := initial_velocity, x2 := initial_acceleration,
    p00 := 1, p01 := 0, p02 := 0,
    p10 := 0, p11 := 1, p12 := 0,
    p20 := 0, p21 := 0, p22 := 1/10 }

/-- Predicted state and covariance of the weight filter: the
`x_pred = F x` and `P_pred = F P Fᵀ + Q` block of
`WeightKalmanFilter::update`. -/
structure WKFPred where
  x0 : ℚ
  x1 : ℚ
  x2 : ℚ
  p00 : ℚ
  p01 : ℚ
  p02 : ℚ
  p10 : ℚ
  p11 : ℚ
  p12 : ℚ
  p20 : ℚ
  p21 : ℚ
  p22 : ℚ
deriving DecidableEq, Repr

/-- Prediction step of `WeightKalmanFilter::update`:
`F(dt) = [[1,dt,dt²/2],[0,1,dt],[0,0,1]]`, `Q` the constant-acceleration
block with the (3,3) entry replaced by `σ_j²`. -/
def wkfPredict (f : WKF) (dt : ℚ) : WKFPred :=
  let dt2d2 := dt * dt / 2
  let dt2 := dt * dt
  let dt3 := dt2 * dt
  let dt4 := dt3 * dt
  let sa2 := f.sigma_a * f.sigma_a
  let sj2 := f.sigma_j * f.sigma_j
  let q00 := sa2 * dt4 / 4
  let q01 := sa2 * dt3 / 2
  let q02 := sa2 * dt2 / 2
  let q10 := sa2 * dt3 / 2
  let q11 := sa2 * dt2
  let q12 := sa2 * dt
  let q20 := sa2 * dt2 / 2
  let q21 := sa2 * dt
  let q22 := sj2
  -- x_pred = F * x_state
  let xp0 := f.x0 + dt * f.x1 + dt2d2 * f.x2
  let xp1 := f.x1 + dt * f.x2
  let xp2 := f.x2
  -- FP = F * P_cov
  let fp00 := f.p00 + dt * f.p10 + dt2d2 * f.p20
  let fp01 := f.p01 + dt * f.p11 + dt2d2 * f.p21
  let fp02 := f.p02 + dt * f.p12 + dt2d2 * f.p22
  let fp10 := f.p10 + dt * f.p20
  let fp11 := f.p11 + dt * f.p21
  let fp12 := f.p12 + dt * f.p22
  let fp20 := f.p20
  let fp21 := f.p21
  let fp22 := f.p22
  -- P_pred = FP * Fᵀ + Q
  let pp00 := fp00 + fp01 * dt + fp02 * dt2d2 + q00
  let pp01 := fp01 + fp02 * dt + q01
  let pp02 := fp02 + q02
  let pp10 := fp10 + fp11 * dt + fp12 * dt2d2 + q10
  let pp11 := fp11 + fp12 * dt + q11
  let pp12 := fp12 + q12
  let pp20 := fp20 + fp21 * dt + fp22 * dt2d2 + q20
  let pp21 := fp21 + fp22 * dt + q21
  let pp22 := fp22 + q22
  { x0 := xp0, x1 := xp1, x2 := xp2,
    p00 := pp00, p01 := pp01, p02 := pp02,
    p10 := pp10, p11 := pp11, p12 := pp12,
    p20 := pp20, p21 := pp21, p22 := pp22 }

/-- The innovation covariance actually used as the Kalman-gain divisor in
`WeightKalmanFilter::update`: `S = P_pred[0][0] + R`, replaced by `1e-9`
only when it is exactly zero (`if (S_innovation_cov == 0)` in the
source). -/
def wkfEffectiveS (f : WKF) (dt : ℚ) : ℚ :=
  let S := (wkfPredict f dt).p00 + f.R
  if S = 0 then 1/1000000000 else S

/-- `WeightKalmanFilter::update`: returns the new filter state and the
returned filtered weight. If `dt ≤ 1e-6` both predict and update are
skipped and the current weight estimate is returned. -/
def wkfUpdate (f : WKF) (measurement dt : ℚ) : WKF × ℚ :=
  if dt ≤ 1/1000000 then (f, f.x0)
  else
    let p := wkfPredict f dt
    let S := wkfEffectiveS f dt
    let K0 := p.p00 / S
    let K1 := p.p10 / S
    let K2 := p.p20 / S
    let y := measurement - p.x0
    let nx0 := p.x0 + K0 * y
    let nx1 := p.x1 + K1 * y
    let nx2 := p.x2 + K2 * y
    -- P_cov = (I - K H) * P_pred with H = [1,0,0]
    let np00 := (1 - K0) * p.p00
    let np01 := (1 - K0) * p.p01
    let np02 := (1 - K0) * p.p02
    let np10 := -K1 * p.p00 + p.p10
    let np11 := -K1 * p.p01 + p.p11
    let np12 := -K1 * p.p02 + p.p12
    let np20 := -K2 * p.p00 + p.p20
    let np21 := -K2 * p.p01 + p.p21
    let np22 := -K2 * p.p02 + p.p22
    ({ f with
        x0 := nx0, x1 := nx1, x2 := nx2,
        p00 := np00, p01 := np01, p02 := np02,
        p10 := np10, p11 := np11, p12 := np12,
        p20 := np20, p21 := np21, p22 := np22 }, nx0)

/-- `WeightKalmanFilter::getVelocity`. -/
def wkfGetVelocity (f : WKF) : ℚ := f.x1

/-! ### Drip Kalman filter and WPD estimator (`DripKalmanFilter.cpp`) -/

/-- State of `DripKalmanFilter`: the two-state drip-rate filter, the
scalar WPD (weight-per-drop) filter, calibration flags and the
cumulative-drop bookkeeping used by `calibrateWpdByTotal`. -/
structure DKF where
  x0 : ℚ
  x1 : ℚ
  p00 : ℚ
  p01 : ℚ
  p10 : ℚ
  p11 : ℚ
  sigma_a : ℚ
  R_drip : ℚ
  wpd : ℚ
  P_wpd : ℚ
  Q_wpd : ℚ
  R_wpd : ℚ
  calibrating_wpd : Bool
  drops_per_ml : ℚ
  density : ℚ
  known_initial_total_weight_g : ℚ
  total_drops_for_volume_calc : Nat
  initial_weight_for_volume_calc_set : Bool
deriving DecidableEq, Repr

/-- `DripKalmanFilter::init`: reset the drip-rate state, set the default
WPD from `drops_per_ml`/`density` when no positive initial WPD is given,
reset `P_wpd` to 0.01 and clamp the WPD into `[0.04, 0.06]`. -/
def dkfInit (f : DKF) (initial_drip_rate_dps initial_wpd_g_per_drip : ℚ)
    (drops_per_ml : ℤ) (density_g_per_ml : ℚ) : DKF :=
  let wpd0 :=
    if initial_wpd_g_per_drip ≤ 0 then
      (1 / (drops_per_ml : ℚ)) * density_g_per_ml
    else initial_wpd_g_per_drip
  let wpd1 := if wpd0 < 1/25 then 1/25 else if wpd0 > 3/50 then 3/50 else wpd0
  { f with
    x0 := initial_drip_rate_dps, x1 := 0,
    p00 := 1/4, p01 := 0, p10 := 0, p11 := 1/4,
    drops_per_ml := (drops_per_ml : ℚ), density := density_g_per_ml,
    wpd := wpd1, P_wpd := 1/100,
    calibrating_wpd := false }

/-- Predicted state and covariance of the drip-rate filter inside
`DripKalmanFilter::update`. -/
structure DKFPred where
  x0 : ℚ
  x1 : ℚ
  p00 : ℚ
  p01 : ℚ
  p10 : ℚ
  p11 : ℚ
deriving DecidableEq, Repr

/-- Prediction block of `DripKalmanFilter::update`:
`F = [[1,dt],[0,1]]`, constant-acceleration `Q` from `σ_a`. -/
def dkfPredict (f : DKF) (dt : ℚ) : DKFPred :=
  let dt2 := dt * dt
  let dt3 := dt2 * dt
  let dt4 := dt3 * dt
  let sa2 := f.sigma_a * f.sigma_a
  let q00 := dt4 / 4 * sa2
  let q01 := dt3 / 2 * sa2
  let q10 := dt3 / 2 * sa2
  let q11 := dt2 * sa2
  let xp0 := f.x0 + dt * f.x1
  let xp1 := f.x1
  let fp00 := f.p00 + dt * f.p10
  let fp01 := f.p01 + dt * f.p11
  let fp10 := f.p10
  let fp11 := f.p11
  let pp00 := fp00 + fp01 * dt + q00
  let pp01 := fp01 + q01
  let pp10 := fp10 + fp11 * dt + q10
  let pp11 := fp11 + q11
  { x0 := xp0, x1 := xp1, p00 := pp00, p01 := pp01, p10 := pp10, p11 := pp11 }

/-- The Kalman-gain divisor of the drip-rate filter:
`S = P_pred[0][0] + R`, replaced by `±1e-9` of matching sign whenever
`|S| < 1e-9` (`if (fabsf(S_inv_dr) < 1e-9f)` in the source). -/
def dkfEffectiveS (f : DKF) (dt : ℚ) : ℚ :=
  let S := (dkfPredict f dt).p00 + f.R_drip
  if |S| < 1/1000000000 then (if S ≥ 0 then 1/1000000000 else -(1/1000000000)) else S

/-- `DripKalmanFilter::update` (current revision, taking the measured
drip rate): skips everything when `dt ≤ 1e-6`; otherwise one predict +
measurement update of the drip-rate filter. The `weight_sensor_change_g`
parameter is unused in this revision (the in-update WPD block is
commented out in the source). -/
def dkfUpdate (f : DKF) (measured_drip_rate time_interval_s weight_sensor_change_g : ℚ) :
    DKF :=
  if time_interval_s ≤ 1/1000000 then f
  else
    let _ := weight_sensor_change_g
    let p := dkfPredict f time_interval_s
    let S := dkfEffectiveS f time_interval_s
    let Sinv := 1 / S
    let K0 := p.p00 * Sinv
    let K1 := p.p10 * Sinv
    let y := measured_drip_rate - p.x0
    { f with
      x0 := p.x0 + K0 * y,
      x1 := p.x1 + K1 * y,
      p00 := (1 - K0) * p.p00,
      p01 := (1 - K0) * p.p01,
      p10 := -K1 * p.p00 + p.p10,
      p11 := -K1 * p.p01 + p.p11 }

/-- `DripKalmanFilter::getFilteredDripRate`. -/
def getFilteredDripRate (f : DKF) : ℚ := f.x0

/-- `DripKalmanFilter::getCalibratedWeightPerDrop`. -/
def getCalibratedWeightPerDrop (f : DKF) : ℚ := f.wpd

/-- `DripKalmanFilter::getFlowRateGramsPerSecond`: 0 when the WPD is not
sensible, else `drop_rate · wpd`. -/
def getFlowRateGramsPerSecond (f : DKF) : ℚ :=
  if f.wpd ≤ 1/1000000 then 0 else f.x0 * f.wpd

/-- `DripKalmanFilter::startWpdCalibration`: sets the calibrating flag
and re-inflates `P_wpd` to 0.25. -/
def startWpdCalibration (f : DKF) : DKF :=
  { f with calibrating_wpd := true, P_wpd := 1/4 }

/-- `DripKalmanFilter::stopWpdCalibration`. -/
def stopWpdCalibration (f : DKF) : DKF :=
  { f with calibrating_wpd := false }

/-- `DripKalmanFilter::setInitialLiquidWeightForVolumeCalc`. -/
def setInitialLiquidWeightForVolumeCalc (f : DKF) (initial_weight_g : ℚ) : DKF :=
  { f with known_initial_total_weight_g := initial_weight_g,
           total_drops_for_volume_calc := 0,
           initial_weight_for_volume_calc_set := true }

/-- `DripKalmanFilter::updateTotalDropsForVolumeCalc`: accumulate drops
only after the initial weight is set and only when positive. -/
def updateTotalDropsForVolumeCalc (f : DKF) (drops_in_latest_period : ℤ) : DKF :=
  if f.initial_weight_for_volume_calc_set then
    if drops_in_latest_period > 0 then
      { f with total_drops_for_volume_calc :=
          f.total_drops_for_volume_calc + drops_in_latest_period.toNat }
    else f
  else f

/-- `DripKalmanFilter::getInfusedWeightByDropsG`. -/
def getInfusedWeightByDropsG (f : DKF) : ℚ :=
  if ¬ f.initial_weight_for_volume_calc_set then 0
  else
    let current_wpd :=
      if f.wpd > 1/1000 then f.wpd else (1 / f.drops_per_ml) * f.density
    let current_wpd := if current_wpd < 1/1000 then 1/20 else current_wpd
    (f.total_drops_for_volume_calc : ℚ) * current_wpd

/-- `DripKalmanFilter::getRemainingWeightByDropsG`. -/
def getRemainingWeightByDropsG (f : DKF) : ℚ :=
  if ¬ f.initial_weight_for_volume_calc_set then 0
  else
    let remaining := f.known_initial_total_weight_g - getInfusedWeightByDropsG f
    if remaining > 0 then remaining else 0

/-- The Kalman-gain divisor of the scalar WPD filter inside
`DripKalmanFilter::calibrateWpdByTotal`: `S = P_pred + R`, replaced by
`±1e-9` of matching sign whenever `|S| < 1e-9`. -/
def wpdEffectiveS (f : DKF) : ℚ :=
  let S := (f.P_wpd + f.Q_wpd) + f.R_wpd
  if |S| < 1/1000000000 then (if S ≥ 0 then 1/1000000000 else -(1/1000000000)) else S

/-- `DripKalmanFilter::calibrateWpdByTotal`: fold the cumulative
`Δmass / cumulative_drops` measurement into the scalar WPD filter,
guarded by the calibration flag, a minimum drop count of 5, a minimum
mass change of 0.01 g and the outlier window `[0.01, 0.2]`; the result
is hard-clamped into `[0.04, 0.06]`. -/
def calibrateWpdByTotal (f : DKF) (current_weight : ℚ) : DKF :=
  if ¬ f.calibrating_wpd ∨ ¬ f.initial_weight_for_volume_calc_set then f
  else if f.total_drops_for_volume_calc < 5 then f
  else
    let delta_weight := f.known_initial_total_weight_g - current_weight
    if delta_weight < 1/100 then f
    else
      let measured_wpd := delta_weight / (f.total_drops_for_volume_calc : ℚ)
      if measured_wpd < 1/100 ∨ measured_wpd > 1/5 then f
      else
        let wpd_pred := f.wpd
        let P_pred := f.P_wpd + f.Q_wpd
        let K := P_pred * (1 / wpdEffectiveS f)
        let wpd1 := wpd_pred + K * (measured_wpd - wpd_pred)
        let wpd2 := if wpd1 < 1/25 then 1/25 else wpd1
        let wpd3 := if wpd2 > 3/50 then 3/50 else wpd2
        { f with wpd := wpd3, P_wpd := (1 - K) * P_pred }

/-! ### Data fusion (`DataFusion.cpp`, six-parameter revision) -/

/-- State of `DataFusion`: two decoupled scalar Kalman estimators
(fused flow, fused remaining weight) and their noise parameters. -/
structure DF where
  x_fused_flow_rate_gps : ℚ
  P_fused_flow_cov : ℚ
  x_fused_remaining_weight_g : ℚ
  P_fused_weight_cov : ℚ
  Q_flow : ℚ
  R_weight_flow : ℚ
  R_drip_flow : ℚ
  Q_weight : ℚ
  R_weight_weight : ℚ
  R_drip_weight : ℚ
deriving DecidableEq, Repr

/-- `DataFusion::init`. -/
def dfInit (f : DF) (initial_fused_flow_rate_gps initial_fused_remaining_weight_g : ℚ) :
    DF :=
  { f with
    x_fused_flow_rate_gps := initial_fused_flow_rate_gps,
    P_fused_flow_cov := 1/10,
    x_fused_remaining_weight_g := initial_fused_remaining_weight_g,
    P_fused_weight_cov := 1 }

/-- `kalman_update_1d` helper in `DataFusion.cpp`: a standard scalar
Kalman measurement update, skipped entirely when `R < 1e-9`. -/
def kalman_update_1d (x P measurement measurement_noise_R : ℚ) : ℚ × ℚ :=
  if measurement_noise_R < 1/1000000000 then (x, P)
  else
    let K := P / (P + measurement_noise_R)
    (x + K * (measurement - x), (1 - K) * P)

/-- `DataFusion::update`: no-op when `dt ≤ 1e-6`; otherwise predict both
scalar estimators (the remaining-weight prediction is coupled to the
current fused flow and floored at 0), then update each sequentially with
its two sensor measurements, and floor the fused remaining weight at 0. -/
def dfUpdate (f : DF)
    (flow_from_weight_sensor_gps flow_from_drip_sensor_gps : ℚ)
    (weight_from_weight_sensor_g weight_from_drip_sensor_g : ℚ) (dt : ℚ) : DF :=
  if dt ≤ 1/1000000 then f
  else
    let flow0 := f.x_fused_flow_rate_gps
    let pflow0 := f.P_fused_flow_cov + f.Q_flow * dt
    let w0 :=
      let wp := f.x_fused_remaining_weight_g - flow0 * dt
      if wp < 0 then 0 else wp
    let pw0 := f.P_fused_weight_cov + f.Q_weight * dt
    let (flow1, pflow1) :=
      if f.R_weight_flow > 1/1000000000 then
        kalman_update_1d flow0 pflow0 flow_from_weight_sensor_gps f.R_weight_flow
      else (flow0, pflow0)
    let (flow2, pflow2) :=
      if f.R_drip_flow > 1/1000000000 then
        kalman_update_1d flow1 pflow1 flow_from_drip_sensor_gps f.R_drip_flow
      else (flow1, pflow1)
    let (w1, pw1) :=
      if f.R_weight_weight > 1/1000000000 then
        kalman_update_1d w0 pw0 weight_from_weight_sensor_g f.R_weight_weight
      else (w0, pw0)
    let (w2, pw2) :=
      if f.R_drip_weight > 1/1000000000 then
        kalman_update_1d w1 pw1 weight_from_drip_sensor_g f.R_drip_weight
      else (w1, pw1)
    let w3 := if w2 < 0 then 0 else w2
    { f with
      x_fused_flow_rate_gps := flow2, P_fused_flow_cov := pflow2,
      x_fused_remaining_weight_g := w3, P_fused_weight_cov := pw2 }

/-- `DataFusion::getFusedFlowRateGps`. -/
def getFusedFlowRateGps (f : DF) : ℚ := f.x_fused_flow_rate_gps

/-- `DataFusion::getFusedRemainingWeightG`. -/
def getFusedRemainingWeightG (f : DF) : ℚ := f.x_fused_remaining_weight_g

/-! ### Drop timestamp ring (`drip_timestamps_ms` queue in the firmware) -/

/-- `MAX_TIMESTAMP_QUEUE_SIZE`. -/
def MAX_TIMESTAMP_QUEUE_SIZE : Nat := 20

/-- The drop timestamp queue plus the ISR timing words:
`drip_timestamps_ms[20]`, `timestamp_queue_head/tail/full`,
`isr_last_drop_time_ms` and `last_drip_detected_time_ms`. -/
structure Ring where
  buf : List Nat
  head : Nat
  tail : Nat
  full : Bool
  isr_last_drop_time_ms : Nat
  last_drip_detected_time_ms : Nat
deriving DecidableEq, Repr

/-- `onWaterDropIsr`: debounce at 50 ms; then enqueue the timestamp at
the tail (the guard `nextTail != head || !full` in the source) and
update the two time words. -/
def onWaterDropIsr (now : Nat) (r : Ring) : Ring :=
  if u32sub now r.isr_last_drop_time_ms > 50 then
    let nextTail := (r.tail + 1) % MAX_TIMESTAMP_QUEUE_SIZE
    let r1 :=
      if nextTail ≠ r.head ∨ ¬ r.full then
        { r with buf := r.buf.set r.tail now,
                 tail := nextTail,
                 full := decide (nextTail = r.head) }
      else r
    { r1 with isr_last_drop_time_ms := now, last_drip_detected_time_ms := now }
  else r

/-- `getNextDripTimestamp`: dequeue from the head; fails on the empty
queue (`head == tail && !full`). -/
def getNextDripTimestamp (r : Ring) : Option (Nat × Ring) :=
  if r.head = r.tail ∧ ¬ r.full then none
  else some (r.buf.getD r.head 0,
    { r with head := (r.head + 1) % MAX_TIMESTAMP_QUEUE_SIZE, full := false })

/-- `getTimestampQueueSize` (`int` arithmetic in the source, so the
difference is computed in `ℤ`). -/
def getTimestampQueueSize (r : Ring) : ℤ :=
  if r.full then (MAX_TIMESTAMP_QUEUE_SIZE : ℤ)
  else ((r.tail : ℤ) - (r.head : ℤ) + (MAX_TIMESTAMP_QUEUE_SIZE : ℤ)) %
    (MAX_TIMESTAMP_QUEUE_SIZE : ℤ)

/-- Fuel-bounded drain loop body: mirrors
`while (getNextDripTimestamp(ts[count]) && count < 20) count++;`
in the tick handler (the queue holds at most 20 entries, so the fuel of
21 pops it empty). -/
def drainAux : Nat → Ring → List Nat → List Nat × Ring
  | 0, r, acc => (acc.reverse, r)
  | n + 1, r, acc =>
    match getNextDripTimestamp r with
    | none => (acc.reverse, r)
    | some (ts, r1) => drainAux n r1 (ts :: acc)

/-- Drain the whole ring into the local timestamp array, in FIFO order. -/
def drainAll (r : Ring) : List Nat × Ring :=
  drainAux (MAX_TIMESTAMP_QUEUE_SIZE + 1) r []

/-! ### Global firmware state and tick handlers (main firmware file) -/

/-- Motor direction (`enum class MotorDirection`). -/
inductive MotorDirection where
  | FORWARD
  | REVERSE
deriving DecidableEq, Repr

/-- The firmware globals touched by the supervisory logic and the tick
pipeline, gathered into one record. Display-only scratch (`char` buffers,
serial prints, LED colors) is omitted; the OLED scalar globals that the
tick pipeline writes are kept. -/
structure Sys where
  current_system_state : SystemState
  auto_clamp : Bool
  infusion_abnormal : Bool
  ring : Ring
  weight_kf : WKF
  drip_kf : DKF
  flow_fusion : DF
  last_loop_run_ms : Nat
  last_abnormality_check_time_ms : Nat
  last_abnormal_output_ms : Nat
  fast_convergence_mode : Bool
  fast_convergence_start_ms : Nat
  raw_weight_g : ℚ
  prev_raw_weight_g : ℚ
  filt_weight_g : ℚ
  prev_filt_weight_g : ℚ
  flow_weight_gps : ℚ
  raw_flow_weight_gps : ℚ
  raw_drip_rate_dps : ℚ
  filt_drip_rate_dps : ℚ
  flow_drip_gps : ℚ
  raw_flow_drip_gps : ℚ
  fused_flow_rate_gps : ℚ
  fused_remaining_weight_g : ℚ
  remaining_weight_drip_calc_g : ℚ
  accumulated_weight_change_for_wpd_g : ℚ
  drops_this_drip_cycle : Nat
  remaining_time_s : ℚ
  remaining_time_raw_weight_s : ℚ
  remaining_time_filt_weight_s : ℚ
  remaining_time_raw_drip_s : ℚ
  remaining_time_filt_drip_s : ℚ
  system_initial_weight_set : Bool
  system_initial_total_liquid_weight_g : ℚ
  target_empty_weight_g : ℚ
  total_volume_ml : ℚ
  reinit_error_count : Nat
  wpd_long_cal_active : Bool
  wpd_long_cal_start_ms : Nat
  wpd_long_cal_accum_drops : Nat
  original_kf_weight_R_noise : ℚ
  original_drip_kf_R_drip_rate_noise : ℚ
  original_drip_kf_R_wpd_noise : ℚ
  original_fusion_R_weight_flow : ℚ
  original_fusion_R_drip_flow : ℚ
  original_fusion_R_weight_weight : ℚ
  original_fusion_R_drip_weight : ℚ
  g_infusion_progress : ℚ
  g_oled_infused_progress_percent : ℚ
  g_oled_flow_rate_mlh : ℚ
  g_oled_remaining_time_min : ℤ
  last_init_button_state : Bool
  last_init_button_press_time : Nat
  abnormality_button_is_pressed : Bool
  abnormality_button_press_time : Nat
  long_press_action_done : Bool
  next_motor_direction : MotorDirection
  motor_is_running : Bool
  motor_start_time_ms : Nat

/-- `TOTAL_TARE_G = EQUIPMENT_TARE_G + EMPTY_BAG_TARE_G = 12 + 60`. -/
def TOTAL_TARE_G : ℚ := 72

/-- `ABNORMALITY_CHECK_INTERVAL_MS` (10 s). -/
def ABNORMALITY_CHECK_INTERVAL_MS : Nat := 10000

/-- `NO_DRIP_TIMEOUT_MS` (10 s). -/
def NO_DRIP_TIMEOUT_MS : Nat := 10000

/-- `FAST_CONVERGENCE_DURATION_MS` (60 s). -/
def FAST_CONVERGENCE_DURATION_MS : Nat := 60000

/-- `MAIN_LOOP_INTERVAL_MS` (1 s). -/
def MAIN_LOOP_INTERVAL_MS : Nat := 1000

/-- `WPD_LONG_CAL_DURATION_MS` (60 s). -/
def WPD_LONG_CAL_DURATION_MS : Nat := 60000

/-- `WPD_LONG_CAL_MIN_DROPS`. -/
def WPD_LONG_CAL_MIN_DROPS : Nat := 30

/-- `calculate_specific_remaining_time`: 0 when at most 0.01 g is left
to infuse; else divide by the flow when it exceeds 1e-5 and clamp to
`[0, 999999]`; else the caller-provided undefined-time sentinel
(default 88888). -/
def calculate_specific_remaining_time
    (current_liquid_weight target_empty_ref_weight current_flow_rate_gps : ℚ)
    (undefined_time_value : ℚ := 88888) : ℚ :=
  let weight_to_infuse := current_liquid_weight - target_empty_ref_weight
  if weight_to_infuse ≤ 1/100 then 0
  else if current_flow_rate_gps > 1/100000 then
    let time := weight_to_infuse / current_flow_rate_gps
    if time < 0 then 0 else if time > 999999 then 999999 else time
  else undefined_time_value

/-- `calculateRemainingTime`: recompute the fused remaining-time
estimate (with sentinel 999999) and the four single-channel estimates
(sentinel 88888 via `calculate_specific_remaining_time`). -/
def calculateRemainingTime (s : Sys) : Sys :=
  let rem0 := s.fused_remaining_weight_g - s.target_empty_weight_g
  let remaining_weight_to_infuse_fused := if rem0 < 0 then 0 else rem0
  let base :=
    if s.fused_flow_rate_gps > 1/100000 then
      remaining_weight_to_infuse_fused / s.fused_flow_rate_gps
    else if remaining_weight_to_infuse_fused ≤ 1/100 then 0 else 999999
  let t1 := if base < 0 then 0 else base
  let t2 := if t1 > 999999 then 999999 else t1
  { s with
    remaining_time_s := t2,
    remaining_time_raw_weight_s :=
      calculate_specific_remaining_time s.raw_weight_g s.target_empty_weight_g
        s.raw_flow_weight_gps,
    remaining_time_filt_weight_s :=
      calculate_specific_remaining_time s.filt_weight_g s.target_empty_weight_g
        s.flow_weight_gps,
    remaining_time_raw_drip_s :=
      calculate_specific_remaining_time s.remaining_weight_drip_calc_g
        s.target_empty_weight_g s.raw_flow_drip_gps,
    remaining_time_filt_drip_s :=
      calculate_specific_remaining_time s.remaining_weight_drip_calc_g
        s.target_empty_weight_g s.flow_drip_gps }

/-- `checkInfusionAbnormality`: only in `NORMAL`; every 10 s, if the last
drip is at least 10 s old, raise the abnormality, go to
`INFUSION_ERROR` and engage the auto clamp. -/
def checkInfusionAbnormality (current_time_ms : Nat) (s : Sys) : Sys :=
  if s.current_system_state ≠ NORMAL then s
  else if u32sub current_time_ms s.last_abnormality_check_time_ms ≥
      ABNORMALITY_CHECK_INTERVAL_MS then
    let s1 :=
      if u32sub current_time_ms s.ring.last_drip_detected_time_ms ≥
          NO_DRIP_TIMEOUT_MS then
        { s with infusion_abnormal := true,
                 current_system_state := INFUSION_ERROR,
                 auto_clamp := true }
      else s
    { s1 with last_abnormality_check_time_ms := current_time_ms }
  else s

/-- `handleFastConvergenceMode`: after 60 s restore every saved original
measurement noise, leave fast convergence and go to `NORMAL`. -/
def handleFastConvergenceMode (current_time_ms : Nat) (s : Sys) : Sys :=
  if u32sub current_time_ms s.fast_convergence_start_ms ≥
      FAST_CONVERGENCE_DURATION_MS then
    { s with
      weight_kf := { s.weight_kf with R := s.original_kf_weight_R_noise },
      drip_kf := { s.drip_kf with
        R_drip := s.original_drip_kf_R_drip_rate_noise,
        R_wpd := s.original_drip_kf_R_wpd_noise },
      flow_fusion := { s.flow_fusion with
        R_weight_flow := s.original_fusion_R_weight_flow,
        R_drip_flow := s.original_fusion_R_drip_flow,
        R_weight_weight := s.original_fusion_R_weight_weight,
        R_drip_weight := s.original_fusion_R_drip_weight },
      fast_convergence_mode := false,
      current_system_state := NORMAL }
  else s

/-- `handleWpdLongCalibration`: when the long-calibration window is
active and both the 60 s duration and the 30-drop minimum are met, stop
the WPD calibration and close the window. -/
def handleWpdLongCalibration (now : Nat) (s : Sys) : Sys :=
  if s.wpd_long_cal_active then
    let elapsed := u32sub now s.wpd_long_cal_start_ms
    let duration_met := elapsed ≥ WPD_LONG_CAL_DURATION_MS
    let drops_met := s.wpd_long_cal_accum_drops ≥ WPD_LONG_CAL_MIN_DROPS
    if duration_met ∧ drops_met then
      { s with drip_kf := stopWpdCalibration s.drip_kf,
               wpd_long_cal_active := false }
    else s
  else s

/-- Infusion-progress block at the top of `handleDataFusion`. -/
def handleDataFusionProgress (s : Sys) : Sys :=
  let progress :=
    if s.system_initial_weight_set then
      let total_infusable := s.system_initial_total_liquid_weight_g -
        s.target_empty_weight_g
      if total_infusable > 1/1000 then
        let infused0 := s.system_initial_total_liquid_weight_g -
          s.fused_remaining_weight_g
        let infused1 := if infused0 < 0 then 0 else infused0
        let infused2 := if infused1 > total_infusable then total_infusable else infused1
        infused2 / total_infusable
      else 0
    else 0
  let progress := if progress < 0 then 0 else if progress > 1 then 1 else progress
  { s with g_infusion_progress := progress }

/-- Drip-channel remaining-weight block of `handleDataFusion`. -/
def handleDataFusionRemainingDrip (s : Sys) : Sys :=
  if s.system_initial_weight_set then
    { s with remaining_weight_drip_calc_g := getRemainingWeightByDropsG s.drip_kf }
  else
    { s with remaining_weight_drip_calc_g := s.filt_weight_g }

/-- Completion detector of `handleDataFusion`: initial weight set,
`NORMAL`, and fused remaining ≤ target + 1 g → `COMPLETED` with the
auto clamp engaged. -/
def handleDataFusionCompletion (s : Sys) : Sys :=
  if s.system_initial_weight_set ∧ s.current_system_state = NORMAL ∧
      s.fused_remaining_weight_g ≤ s.target_empty_weight_g + 1 then
    { s with current_system_state := COMPLETED, auto_clamp := true }
  else s

/-- Fusion-update block of `handleDataFusion`, including the output
floors on the published fused values. -/
def handleDataFusionFuse (dt_main_loop_s : ℚ) (s : Sys) : Sys :=
  let df := dfUpdate s.flow_fusion s.flow_weight_gps s.flow_drip_gps
    s.filt_weight_g s.remaining_weight_drip_calc_g dt_main_loop_s
  let ff0 := getFusedFlowRateGps df
  let ff := if ff0 < 0 then 0 else ff0
  let fr0 := getFusedRemainingWeightG df
  let fr := if fr0 < 0 then 0 else fr0
  { s with flow_fusion := df, fused_flow_rate_gps := ff,
           fused_remaining_weight_g := fr }

/-- `handleDataFusion`: infusion-progress computation, WPD long-cal
handling, drip-channel remaining weight, the completion detector, the
fusion update with its output floors, and the remaining-time
recomputation, in source order. -/
def handleDataFusion (now : Nat) (dt_main_loop_s : ℚ) (s : Sys) : Sys :=
  calculateRemainingTime
    (handleDataFusionFuse dt_main_loop_s
      (handleDataFusionCompletion
        (handleDataFusionRemainingDrip
          (handleWpdLongCalibration now
            (handleDataFusionProgress s)))))

/-- The measured drip rate computed from the drained timestamps inside
`handleDripRate`: inverse of the mean of the inter-drop intervals lying
in (50 ms, 5000 ms); 0 when no interval qualifies. Returns the rate in
drops/second together with the number of accepted intervals. -/
def measuredDripRateOf (timestamps : List Nat) : ℚ × Nat :=
  let rec go : List Nat → ℚ → Nat → ℚ × Nat
    | [], total, valid => (total, valid)
    | _ :: [], total, valid => (total, valid)
    | a :: b :: rest, total, valid =>
      let interval_ms : ℚ := (u32sub b a : ℚ)
      if interval_ms > 50 ∧ interval_ms < 5000 then
        go (b :: rest) (total + interval_ms) (valid + 1)
      else go (b :: rest) total valid
  let (total_interval_ms, valid_intervals) := go timestamps 0 0
  if valid_intervals > 0 then
    (1000 / (total_interval_ms / (valid_intervals : ℚ)), valid_intervals)
  else (0, valid_intervals)

/-- `handleDripRate`: accumulate the filtered-weight change for WPD
calibration, drain the timestamp ring; with at most one timestamp the
single timestamp (if any) is put back and nothing else runs; otherwise
update the drip KF, accumulate the drop count, run the WPD calibration
while in `NORMAL`, refresh all published drip-channel values, and seed
the ring with the last timestamp. -/
def handleDripRate (dt_main_loop_s : ℚ) (s : Sys) : Sys :=
  let s := { s with accumulated_weight_change_for_wpd_g :=
    s.accumulated_weight_change_for_wpd_g + (s.prev_filt_weight_g - s.filt_weight_g) }
  let drained := drainAll s.ring
  let timestamps := drained.fst
  let ringAfter := drained.snd
  if timestamps.length ≤ 1 then
    if timestamps.length = 1 then
      { s with ring := { ringAfter with
          buf := ringAfter.buf.set 0 (timestamps.getD 0 0),
          head := 0, tail := 1, full := false } }
    else { s with ring := ringAfter }
  else
    let m := measuredDripRateOf timestamps
    let measured_drip_rate := m.fst
    let valid_intervals := m.snd
    let dkf1 := dkfUpdate s.drip_kf measured_drip_rate dt_main_loop_s
      s.accumulated_weight_change_for_wpd_g
    let dkf2 :=
      if s.system_initial_weight_set then
        let d := updateTotalDropsForVolumeCalc dkf1 (valid_intervals : ℤ)
        if s.current_system_state = NORMAL then calibrateWpdByTotal d s.filt_weight_g
        else d
      else dkf1
    let filt0 := getFilteredDripRate dkf2
    let filt := if filt0 < 0 then 0 else filt0
    let raw_flow0 := measured_drip_rate * getCalibratedWeightPerDrop dkf2
    let raw_flow := if raw_flow0 < 0 then 0 else raw_flow0
    { s with
      drip_kf := dkf2,
      drops_this_drip_cycle := valid_intervals,
      accumulated_weight_change_for_wpd_g := 0,
      filt_drip_rate_dps := filt,
      flow_drip_gps := getFlowRateGramsPerSecond dkf2,
      raw_drip_rate_dps := measured_drip_rate,
      raw_flow_drip_gps := raw_flow,
      ring := { ringAfter with
        buf := ringAfter.buf.set 0 (timestamps.getD (timestamps.length - 1) 0),
        head := 0, tail := 1, full := false } }

/-- `handleWeightSensor`: read the raw mass (tare-subtracted), replace
non-physical or NaN/Inf readings (and not-ready reads) by the last
filtered value, compute the raw weight-channel flow, update the weight
KF, derive the weight-channel flow from the velocity, and apply the
non-negativity floors to the published scalars. `now` stands for the
`millis()` call inside the function. -/
def handleWeightSensor (ready : Bool) (gross : Reading) (now : Nat) (s : Sys) : Sys :=
  let prev_filt_this := s.filt_weight_g
  let readPair :=
    if ready then
      let v := gross.val - TOTAL_TARE_G
      let bad := (|v| > 2000 ∧ |prev_filt_this| < 1000) ∨ gross.nan ∨ gross.inf
      (if bad then prev_filt_this else v, v)
    else (prev_filt_this, s.prev_raw_weight_g)
  let raw_weight := readPair.fst
  let current_raw_for_flow := readPair.snd
  let dt_main_loop_s : ℚ := (u32sub now s.last_loop_run_ms : ℚ) / 1000
  let raw_flow0 :=
    if dt_main_loop_s > 1/100000 then
      (s.prev_raw_weight_g - current_raw_for_flow) / dt_main_loop_s
    else 0
  let raw_flow := if raw_flow0 < 0 then 0 else raw_flow0
  let u := wkfUpdate s.weight_kf raw_weight dt_main_loop_s
  let flow_w0 := -(wkfGetVelocity u.fst)
  let flow_w := if flow_w0 < 0 then 0 else flow_w0
  { s with
    raw_weight_g := raw_weight,
    prev_raw_weight_g := current_raw_for_flow,
    filt_weight_g := u.snd,
    weight_kf := u.fst,
    flow_weight_gps := flow_w,
    raw_flow_weight_gps := raw_flow,
    flow_drip_gps := if s.flow_drip_gps < 0 then 0 else s.flow_drip_gps,
    raw_flow_drip_gps := if s.raw_flow_drip_gps < 0 then 0 else s.raw_flow_drip_gps,
    fused_flow_rate_gps := if s.fused_flow_rate_gps < 0 then 0 else s.fused_flow_rate_gps,
    fused_remaining_weight_g :=
      if s.fused_remaining_weight_g < 0 then 0 else s.fused_remaining_weight_g,
    remaining_weight_drip_calc_g :=
      if s.remaining_weight_drip_calc_g < 0 then 0 else s.remaining_weight_drip_calc_g,
    g_oled_flow_rate_mlh := if s.g_oled_flow_rate_mlh < 0 then 0 else s.g_oled_flow_rate_mlh,
    g_infusion_progress :=
      let p := if s.g_infusion_progress < 0 then 0 else s.g_infusion_progress
      if p > 1 then 1 else p }

/-- `calculateTotalVolume`: 1 g = 1 mL, rounded up to the next multiple
of 100 mL. -/
def calculateTotalVolume (initial_weight_g : ℚ) : ℚ :=
  (Int.ceil (initial_weight_g / 100) : ℚ) * 100

/-- `REINIT_ERROR_THRESHOLD` declared in `performSystemReinitialization`
(the persistent-failure lock threshold; the counter is compared against
nothing else in the source). -/
def REINIT_ERROR_THRESHOLD : Nat := 3

/-- `performSystemReinitialization`: reset the supervisory flags, check
sensor readiness, subtract the 72 g tare, reject NaN/Inf readings,
readings with `|value| > 5000` g or liquid mass ≤ 10 g (entering
`INIT_ERROR` and incrementing the persistent error counter); on success
zero the counter, seed every filter with the new mass, restart WPD
calibration, and enter fast convergence with every measurement noise
divided by 10. `ready` and `gross` stand for `scale_sensor.is_ready()`
and `scale_sensor.get_units(10)`; `now` for `millis()`. -/
def performSystemReinitialization (ready : Bool) (gross : Reading) (now : Nat)
    (s : Sys) : Sys :=
  let s := { s with
    current_system_state := INITIALIZING,
    infusion_abnormal := false,
    fast_convergence_mode := false,
    system_initial_weight_set := false,
    system_initial_total_liquid_weight_g := 0 }
  if ¬ ready then
    { s with current_system_state := INIT_ERROR,
             reinit_error_count := s.reinit_error_count + 1 }
  else
    let initial_weight_reading := gross.val - TOTAL_TARE_G
    if gross.nan ∨ gross.inf ∨ |initial_weight_reading| > 5000 ∨
        initial_weight_reading ≤ 10 then
      { s with current_system_state := INIT_ERROR,
               reinit_error_count := s.reinit_error_count + 1 }
    else
      let s := { s with total_volume_ml := calculateTotalVolume initial_weight_reading }
      let s := { s with reinit_error_count := 0 }
      let s := { s with
        raw_weight_g := initial_weight_reading,
        filt_weight_g := initial_weight_reading,
        prev_filt_weight_g := initial_weight_reading,
        prev_raw_weight_g := initial_weight_reading,
        system_initial_total_liquid_weight_g := initial_weight_reading,
        system_initial_weight_set := true }
      let wkf1 := wkfInit s.weight_kf initial_weight_reading 0 0
      let dkf1 := dkfInit s.drip_kf 0 (-1) 20 1
      let dkf2 := setInitialLiquidWeightForVolumeCalc dkf1
        s.system_initial_total_liquid_weight_g
      let df1 := dfInit s.flow_fusion 0 s.raw_weight_g
      let dkf3 := startWpdCalibration dkf2
      let dkf4 := { dkf3 with total_drops_for_volume_calc := 0 }
      let s := { s with
        weight_kf := wkf1, drip_kf := dkf4, flow_fusion := df1,
        wpd_long_cal_active := false,
        current_system_state := FAST_CONVERGENCE,
        fast_convergence_mode := true,
        fast_convergence_start_ms := now }
      { s with
        weight_kf := { s.weight_kf with R := s.original_kf_weight_R_noise / 10 },
        drip_kf := { s.drip_kf with
          R_drip := s.original_drip_kf_R_drip_rate_noise / 10,
          R_wpd := s.original_drip_kf_R_wpd_noise / 10 },
        flow_fusion := { s.flow_fusion with
          R_weight_flow := s.original_fusion_R_weight_flow / 10,
          R_drip_flow := s.original_fusion_R_drip_flow / 10,
          R_weight_weight := s.original_fusion_R_weight_weight / 10,
          R_drip_weight := s.original_fusion_R_drip_weight / 10 } }

/-- `MOTOR_RUN_DURATION_MS`. -/
def MOTOR_RUN_DURATION_MS : Nat := 2000

/-- `handleMotor`: stop a running motor after its run duration. -/
def handleMotor (now : Nat) (s : Sys) : Sys :=
  if s.motor_is_running ∧ u32sub now s.motor_start_time_ms ≥ MOTOR_RUN_DURATION_MS then
    { s with motor_is_running := false }
  else s

/-- `toggleMotorState`: start the motor in the alternating direction
unless it is already running. -/
def toggleMotorState (now : Nat) (s : Sys) : Sys :=
  if s.motor_is_running then s
  else
    { s with
      next_motor_direction :=
        match s.next_motor_direction with
        | MotorDirection.FORWARD => MotorDirection.REVERSE
        | MotorDirection.REVERSE => MotorDirection.FORWARD,
      motor_is_running := true,
      motor_start_time_ms := now }

/-- `INIT_BUTTON_DEBOUNCE_MS`. -/
def INIT_BUTTON_DEBOUNCE_MS : Nat := 200

/-- `ABNORMALITY_RESET_BUTTON_LONG_PRESS_MS`. -/
def ABNORMALITY_RESET_BUTTON_LONG_PRESS_MS : Nat := 1000

/-- The init-button block of `handleButtonInputs`: a falling edge
(debounced) triggers a full reinitialization followed by fast
convergence. Button readings are `true` for HIGH (not pressed). -/
def handleInitButton (current_time_ms : Nat) (init_button_reading : Bool)
    (ready : Bool) (gross : Reading) (s : Sys) : Sys :=
  let s :=
    if s.last_init_button_state = true ∧ init_button_reading = false then
      if u32sub current_time_ms s.last_init_button_press_time >
          INIT_BUTTON_DEBOUNCE_MS then
        let s := { s with last_init_button_press_time := current_time_ms }
        let s := performSystemReinitialization ready gross current_time_ms s
        { s with current_system_state := FAST_CONVERGENCE,
                 fast_convergence_mode := true,
                 fast_convergence_start_ms := current_time_ms }
      else s
    else s
  { s with last_init_button_state := init_button_reading }

/-- The abnormality-reset-button block of `handleButtonInputs` (GPIO0,
short and long press). -/
def handleResetButton (current_time_ms : Nat) (reset_button_reading : Bool)
    (ready : Bool) (gross : Reading) (s : Sys) : Sys :=
  if reset_button_reading = false then
    if ¬ s.abnormality_button_is_pressed then
      { s with abnormality_button_is_pressed := true,
               abnormality_button_press_time := current_time_ms,
               long_press_action_done := false }
    else
      if ¬ s.long_press_action_done ∧
          u32sub current_time_ms s.abnormality_button_press_time >
            ABNORMALITY_RESET_BUTTON_LONG_PRESS_MS then
        let s := toggleMotorState current_time_ms s
        { s with long_press_action_done := true }
      else s
  else
    if s.abnormality_button_is_pressed then
      let s :=
        if ¬ s.long_press_action_done then
          match s.current_system_state with
          | INIT_ERROR => performSystemReinitialization ready gross current_time_ms s
          | INFUSION_ERROR =>
            { s with infusion_abnormal := false,
                     current_system_state := NORMAL,
                     auto_clamp := false,
                     ring := { s.ring with last_drip_detected_time_ms := current_time_ms } }
          | COMPLETED =>
            { s with infusion_abnormal := false,
                     current_system_state := NORMAL,
                     auto_clamp := false,
                     ring := { s.ring with last_drip_detected_time_ms := current_time_ms } }
          | FAST_CONVERGENCE =>
            { s with current_system_state := NORMAL, fast_convergence_mode := false }
          | _ => s
        else s
      { s with abnormality_button_is_pressed := false }
    else s

/-- `handleButtonInputs`: the init-button block followed by the
abnormality-reset-button block, in source order. The reset button
supports a long press (toggle motor) and a short press whose action
depends on the current state (`INIT_ERROR` → reinitialize,
`INFUSION_ERROR`/`COMPLETED` → back to `NORMAL` with the clamp released
and a fresh detection window, `FAST_CONVERGENCE` → back to `NORMAL`). -/
def handleButtonInputs (current_time_ms : Nat)
    (init_button_reading reset_button_reading : Bool)
    (ready : Bool) (gross : Reading) (s : Sys) : Sys :=
  handleResetButton current_time_ms reset_button_reading ready gross
    (handleInitButton current_time_ms init_button_reading ready gross s)

/-- `handleMainProcessing`: run the weight → drip → fusion pipeline once
the elapsed wall-clock time reaches the 1 s main-loop interval. -/
def handleMainProcessing (current_time_ms : Nat) (ready : Bool) (gross : Reading)
    (s : Sys) : Sys :=
  let dt_main_loop_s : ℚ := (u32sub current_time_ms s.last_loop_run_ms : ℚ) / 1000
  if dt_main_loop_s ≥ (MAIN_LOOP_INTERVAL_MS : ℚ) / 1000 then
    let s := { s with last_loop_run_ms := current_time_ms }
    let s := handleWeightSensor ready gross current_time_ms s
    let s := handleDripRate dt_main_loop_s s
    handleDataFusion current_time_ms dt_main_loop_s s
  else s

/-- The two state-guarded supervisory calls of `loop()`: the abnormality
check only in `NORMAL`, the fast-convergence timeout only in
`FAST_CONVERGENCE`. -/
def loopStepSupervisor (current_time_ms : Nat) (s : Sys) : Sys :=
  let s :=
    if s.current_system_state = NORMAL then
      checkInfusionAbnormality current_time_ms s
    else s
  if s.current_system_state = FAST_CONVERGENCE then
    handleFastConvergenceMode current_time_ms s
  else s

/-- The dispatch tail of `loop()`: the main processing pipeline in
`NORMAL`/`FAST_CONVERGENCE`; in the other states only the 1 s
display/output timer advances. -/
def loopStepDispatch (current_time_ms : Nat) (ready : Bool) (gross : Reading)
    (s : Sys) : Sys :=
  if s.current_system_state = NORMAL ∨ s.current_system_state = FAST_CONVERGENCE then
    handleMainProcessing current_time_ms ready gross s
  else
    if u32sub current_time_ms s.last_abnormal_output_ms ≥ MAIN_LOOP_INTERVAL_MS then
      { s with last_abnormal_output_ms := current_time_ms }
    else s

/-- One pass of `loop()` restricted to the modelled state: button
handling, motor timing, the `NORMAL`-only abnormality check, the
fast-convergence timeout, and the main processing pipeline in
`NORMAL`/`FAST_CONVERGENCE`. Network, LED and display I/O are stateless
for the modelled fields and omitted. -/
def loopStep (current_time_ms : Nat)
    (init_button_reading reset_button_reading : Bool)
    (ready : Bool) (gross : Reading) (s : Sys) : Sys :=
  loopStepDispatch current_time_ms ready gross
    (loopStepSupervisor current_time_ms
      (handleMotor current_time_ms
        (handleButtonInputs current_time_ms init_button_reading
          reset_button_reading ready gross s)))

/-! ### WebSocket text commands (`onWebSocketEvent`, `WStype_TEXT` case) -/

/-- Digit run of a C `atof`/`strtod` parse: accumulated value, number of
digits consumed, and the rest of the input. -/
def parseDigits : List Char → Nat → Nat → Nat × Nat × List Char
  | [], v, n => (v, n, [])
  | c :: rest, v, n =>
    if c.isDigit then parseDigits rest (v * 10 + (c.toNat - 48)) (n + 1)
    else (v, n, c :: rest)

/-- Model of C `atof` on the tail of the payload: skip spaces, optional
sign, integer digits, optional fraction. A parse that finds no digit at
the front (for example one starting at a stray character) yields 0, as
`atof` does. Exponent suffixes, which the dashboard never sends, are not
modelled. -/
def atofQ (cs : List Char) : ℚ :=
  let cs1 := cs.dropWhile (fun c => c = ' ')
  let signed : ℚ × List Char :=
    match cs1 with
    | '-' :: rest => (-1, rest)
    | '+' :: rest => (1, rest)
    | _ => (1, cs1)
  let ip := parseDigits signed.snd 0 0
  let fp :=
    match ip.snd.snd with
    | '.' :: rest => parseDigits rest 0 0
    | _ => (0, 0, ip.snd.snd)
  signed.fst * ((ip.fst : ℚ) + (fp.fst : ℚ) / (10 : ℚ) ^ fp.snd.fst)

/-- The `WStype_TEXT` case of `onWebSocketEvent`: dispatch on the
payload text and return the new state together with the reply text sent
to the client (numeric suffixes of the replies are omitted; only the
fixed reply prefixes are modelled). The `SET_TOTAL_VOLUME` arm mirrors
the source exactly: `strncmp(payload, "SET_TOTAL_VOLUME:", 16)` compares
only the first 16 characters and `atof((char*)payload + 16)` parses from
offset 16. -/
def onWebSocketTextCommand (now : Nat) (payload : String) (s : Sys) : Sys × String :=
  let cs := payload.toList
  if payload = "CALIBRATE_WPD_START" then
    if s.wpd_long_cal_active then
      (s, "EVENT:WPD_CALIBRATION_ALREADY_RUNNING")
    else
      ({ s with drip_kf := startWpdCalibration s.drip_kf,
                wpd_long_cal_active := true,
                wpd_long_cal_start_ms := now,
                wpd_long_cal_accum_drops := 0 },
       "CMD_ACK:WPD_LONG_CALIBRATION_STARTED")
  else if payload = "CALIBRATE_WPD_STOP" then
    if s.wpd_long_cal_active then
      ({ s with drip_kf := stopWpdCalibration s.drip_kf,
                wpd_long_cal_active := false },
       "CMD_ACK:WPD_CALIBRATION_STOPPED_MANUALLY")
    else
      (s, "EVENT:WPD_CALIBRATION_NOT_RUNNING")
  else if cs.take 16 = ("SET_TOTAL_VOLUME:".toList.take 16) then
    let new_volume := atofQ (cs.drop 16)
    if new_volume > 0 then
      ({ s with total_volume_ml := new_volume }, "CMD_ACK:TOTAL_VOLUME_SET")
    else
      (s, "ERROR:INVALID_VOLUME")
  else
    (s, "CMD_UNKNOWN")

/-! ### Concrete base states for witnesses -/

/-- An empty timestamp ring as at boot. -/
def baseRing : Ring :=
  { buf := List.replicate 20 0, head := 0, tail := 0, full := false,
    isr_last_drop_time_ms := 0, last_drip_detected_time_ms := 0 }

/-- `weight_kf` as constructed at boot
(`WeightKalmanFilter(0.0005, 1e-6, 50)`). -/
def baseWKF : WKF :=
  { x0 := 0, x1 := 0, x2 := 0,
    p00 := 100, p01 := 0, p02 := 0,
    p10 := 0, p11 := 10, p12 := 0,
    p20 := 0, p21 := 0, p22 := 1,
    sigma_a := 1/2000, sigma_j := 1/1000000, R := 50 }

/-- `drip_kf` as constructed at boot
(`DripKalmanFilter(1e-5, 0.05, 1e-8, 1e-4)`). -/
def baseDKF : DKF :=
  { x0 := 0, x1 := 0, p00 := 1, p01 := 0, p10 := 0, p11 := 1,
    sigma_a := 1/100000, R_drip := 1/20,
    wpd := 1/20, P_wpd := 1, Q_wpd := 1/100000000, R_wpd := 1/10000,
    calibrating_wpd := false, drops_per_ml := 20, density := 1,
    known_initial_total_weight_g := 0, total_drops_for_volume_calc := 0,
    initial_weight_for_volume_calc_set := false }

/-- `flow_fusion` as constructed at boot
(`DataFusion(1e-7, 0.01, 0.0005, 0.01, 1, 1)`). -/
def baseDF : DF :=
  { x_fused_flow_rate_gps := 0, P_fused_flow_cov := 1,
    x_fused_remaining_weight_g := 0, P_fused_weight_cov := 10,
    Q_flow := 1/10000000, R_weight_flow := 1/100, R_drip_flow := 1/2000,
    Q_weight := 1/100, R_weight_weight := 1, R_drip_weight := 1 }

/-- A concrete global state mirroring the boot-time globals, used as the
starting point of concrete witnesses. -/
def baseSys : Sys :=
  { current_system_state := INITIALIZING,
    auto_clamp := false,
    infusion_abnormal := false,
    ring := baseRing,
    weight_kf := baseWKF,
    drip_kf := baseDKF,
    flow_fusion := baseDF,
    last_loop_run_ms := 0,
    last_abnormality_check_time_ms := 0,
    last_abnormal_output_ms := 0,
    fast_convergence_mode := false,
    fast_convergence_start_ms := 0,
    raw_weight_g := 0,
    prev_raw_weight_g := 0,
    filt_weight_g := 0,
    prev_filt_weight_g := 0,
    flow_weight_gps := 0,
    raw_flow_weight_gps := 0,
    raw_drip_rate_dps := 0,
    filt_drip_rate_dps := 0,
    flow_drip_gps := 0,
    raw_flow_drip_gps := 0,
    fused_flow_rate_gps := 0,
    fused_remaining_weight_g := 0,
    remaining_weight_drip_calc_g := 0,
    accumulated_weight_change_for_wpd_g := 0,
    drops_this_drip_cycle := 0,
    remaining_time_s := 0,
    remaining_time_raw_weight_s := 0,
    remaining_time_filt_weight_s := 0,
    remaining_time_raw_drip_s := 0,
    remaining_time_filt_drip_s := 0,
    system_initial_weight_set := false,
    system_initial_total_liquid_weight_g := 0,
    target_empty_weight_g := 0,
    total_volume_ml := 0,
    reinit_error_count := 0,
    wpd_long_cal_active := false,
    wpd_long_cal_start_ms := 0,
    wpd_long_cal_accum_drops := 0,
    original_kf_weight_R_noise := 50,
    original_drip_kf_R_drip_rate_noise := 1/20,
    original_drip_kf_R_wpd_noise := 1/10000,
    original_fusion_R_weight_flow := 1/100,
    original_fusion_R_drip_flow := 1/2000,
    original_fusion_R_weight_weight := 1,
    original_fusion_R_drip_weight := 1,
    g_infusion_progress := 0,
    g_oled_infused_progress_percent := 0,
    g_oled_flow_rate_mlh := 0,
    g_oled_remaining_time_min := -1,
    last_init_button_state := true,
    last_init_button_press_time := 0,
    abnormality_button_is_pressed := false,
    abnormality_button_press_time := 0,
    long_press_action_done := false,
    next_motor_direction := MotorDirection.FORWARD,
    motor_is_running := false,
    motor_start_time_ms := 0 }

/-- `baseSys` in `FAST_CONVERGENCE`. -/
def sysFC : Sys :=
  { baseSys with
    current_system_state := FAST_CONVERGENCE }

/-- `baseSys` in `NORMAL`. -/
def sysNormal : Sys :=
  { baseSys with
    current_system_state := NORMAL }

/-- `baseSys` in `NORMAL` with the initial weight set (completion-check
scenario). -/
def sysNormalInitialSet : Sys :=
  { baseSys with
    current_system_state := NORMAL,
    system_initial_weight_set := true }

/-- `baseSys` in `INIT_ERROR` (reinit-failure scenario). -/
def sysInitError : Sys :=
  { baseSys with
    current_system_state := INIT_ERROR }

/-- `baseSys` with 100 g of fused remaining mass and zero fused flow
(remaining-time sentinel scenario). -/
def sysFlowZero : Sys :=
  { baseSys with
    fused_remaining_weight_g := 100 }

/-- A sensor reading whose tared value is non-positive (a rejected
reinitialization input). -/
def badReading : Reading := { nan := false, inf := false, val := 0 }

/-- A weight filter state with zero covariance, zero process noise and a
measurement variance of `5e-10` (all reachable through
`setMeasurementNoise`), putting the innovation covariance strictly
between 0 and `1e-9`. -/
def wkfTiny : WKF :=
  { baseWKF with
    p00 := 0, p01 := 0, p02 := 0, p10 := 0, p11 := 0, p12 := 0,
    p20 := 0, p21 := 0, p22 := 0, sigma_a := 0, sigma_j := 0, R := 1/2000000000 }

/-- Twenty drop-edge timestamps 100 ms apart (all beyond the 50 ms
debounce), enough to fill the ring exactly. -/
def overflowPushTimes : List Nat :=
  [100, 200, 300, 400, 500, 600, 700, 800, 900, 1000,
   1100, 1200, 1300, 1400, 1500, 1600, 1700, 1800, 1900, 2000]

/-- The ring after 20 accepted drop edges: completely full. -/
def fullRingExample : Ring :=
  overflowPushTimes.foldl (fun r t => onWaterDropIsr t r) baseRing

/-- The four single-channel remaining-time estimates as the source
computes them, written in closed form for comparison with
`calculate_specific_remaining_time`: 0 when at most 0.01 g above the
target, else the quotient clamped to 999999 when the flow exceeds 1e-5,
else the undefined-time sentinel. -/
def remTimeSingleSpec (mass target flow undef : ℚ) : ℚ :=
  if mass - target ≤ 1/100 then 0
  else if flow > 1/100000 then min ((mass - target) / flow) 999999
  else undef

/-- The fused remaining-time estimate as the source computes it, in
closed form: with the remaining-to-infuse mass floored at 0, the
quotient clamped to 999999 when the fused flow exceeds 1e-5, else 0 when
at most 0.01 g remains and the sentinel 999999 otherwise. -/
def remTimeFusedSpec (rem target flow : ℚ) : ℚ :=
  if flow > 1/100000 then min (max 0 (rem - target) / flow) 999999
  else if max 0 (rem - target) ≤ 1/100 then 0 else 999999

/-! ### Helper lemmas -/

/-- `calculateRemainingTime` only writes the remaining-time fields. -/
theorem calculateRemainingTime_frame (s : Sys) :
    (calculateRemainingTime s).current_system_state = s.current_system_state ∧
    (calculateRemainingTime s).auto_clamp = s.auto_clamp ∧
    (calculateRemainingTime s).fused_flow_rate_gps = s.fused_flow_rate_gps ∧
    (calculateRemainingTime s).fused_remaining_weight_g = s.fused_remaining_weight_g :=
  ⟨rfl, rfl, rfl, rfl⟩

/-- The fusion block leaves the supervisory fields alone. -/
theorem handleDataFusionFuse_frame (dt : ℚ) (s : Sys) :
    (handleDataFusionFuse dt s).current_system_state = s.current_system_state ∧
    (handleDataFusionFuse dt s).auto_clamp = s.auto_clamp := ⟨rfl, rfl⟩

/-- The WPD long-calibration block leaves the supervisory and fusion
inputs alone. -/
theorem handleWpdLongCalibration_frame (now : Nat) (s : Sys) :
    (handleWpdLongCalibration now s).current_system_state = s.current_system_state ∧
    (handleWpdLongCalibration now s).auto_clamp = s.auto_clamp ∧
    (handleWpdLongCalibration now s).system_initial_weight_set =
      s.system_initial_weight_set ∧
    (handleWpdLongCalibration now s).fused_remaining_weight_g =
      s.fused_remaining_weight_g ∧
    (handleWpdLongCalibration now s).target_empty_weight_g = s.target_empty_weight_g := by
  refine ⟨?_, ?_, ?_, ?_, ?_⟩
  all_goals
    simp only [handleWpdLongCalibration, stopWpdCalibration]
    split
    · split <;> rfl
    · rfl

/-- The drip-channel remaining-weight block leaves the supervisory
fields alone. -/
theorem handleDataFusionRemainingDrip_frame (s : Sys) :
    (handleDataFusionRemainingDrip s).current_system_state = s.current_system_state ∧
    (handleDataFusionRemainingDrip s).auto_clamp = s.auto_clamp ∧
    (handleDataFusionRemainingDrip s).system_initial_weight_set =
      s.system_initial_weight_set ∧
    (handleDataFusionRemainingDrip s).fused_remaining_weight_g =
      s.fused_remaining_weight_g ∧
    (handleDataFusionRemainingDrip s).target_empty_weight_g =
      s.target_empty_weight_g := by
  refine ⟨?_, ?_, ?_, ?_, ?_⟩
  all_goals
    simp only [handleDataFusionRemainingDrip]
    split <;> rfl

/-- The completion detector fires exactly under its three conditions. -/
theorem handleDataFusionCompletion_fires (s : Sys)
    (hset : s.system_initial_weight_set = true)
    (hst : s.current_system_state = NORMAL)
    (hrem : s.fused_remaining_weight_g ≤ s.target_empty_weight_g + 1) :
    (handleDataFusionCompletion s).current_system_state = COMPLETED ∧
    (handleDataFusionCompletion s).auto_clamp = true := by
  unfold handleDataFusionCompletion
  rw [if_pos ⟨hset, hst, hrem⟩]
  exact ⟨rfl, rfl⟩

/-- A rejected reinitialization read: `INIT_ERROR` and one more
consecutive failure counted. -/
theorem reinit_reject_aux (gross : Reading) (now : Nat) (s : Sys)
    (h : gross.nan ∨ gross.inf ∨ |gross.val - TOTAL_TARE_G| > 5000 ∨
      gross.val - TOTAL_TARE_G ≤ 10) :
    (performSystemReinitialization true gross now s).current_system_state =
      INIT_ERROR ∧
    (performSystemReinitialization true gross now s).reinit_error_count =
      s.reinit_error_count + 1 := by
  simp only [performSystemReinitialization]
  rw [if_neg (by simp)]
  rw [if_pos h]
  exact ⟨rfl, rfl⟩

/-- With the init button held HIGH, its block only refreshes the stored
button level. -/
theorem init_button_idle_aux (now : Nat) (ready : Bool) (gross : Reading) (s : Sys) :
    handleInitButton now true ready gross s =
      { s with last_init_button_state := true } := by
  simp only [handleInitButton]
  rw [if_neg (by simp)]

/-- With the reset button held HIGH and no press pending, its block is a
no-op. -/
theorem reset_button_idle_aux (now : Nat) (ready : Bool) (gross : Reading) (s : Sys)
    (hp : s.abnormality_button_is_pressed = false) :
    handleResetButton now true ready gross s = s := by
  simp only [handleResetButton]
  rw [if_neg (by simp)]
  rw [if_neg (by simp only [Bool.not_eq_true]; exact hp)]

/-- The motor timer never touches the system state. -/
theorem motor_frame_aux (now : Nat) (s : Sys) :
    (handleMotor now s).current_system_state = s.current_system_state ∧
    (handleMotor now s).last_abnormal_output_ms = s.last_abnormal_output_ms := by
  constructor <;> (simp only [handleMotor]; split <;> rfl)

/-- Outside `NORMAL` and `FAST_CONVERGENCE`, both supervisory calls are
skipped. -/
theorem supervisor_skip_aux (now : Nat) (s : Sys)
    (h1 : s.current_system_state ≠ NORMAL)
    (h2 : s.current_system_state ≠ FAST_CONVERGENCE) :
    loopStepSupervisor now s = s := by
  simp only [loopStepSupervisor]
  rw [if_neg h1, if_neg h2]

/-- Outside `NORMAL` and `FAST_CONVERGENCE`, the loop tail only advances
the display/output timer. -/
theorem dispatch_state_aux (now : Nat) (ready : Bool) (gross : Reading) (s : Sys)
    (h : ¬ (s.current_system_state = NORMAL ∨
        s.current_system_state = FAST_CONVERGENCE)) :
    (loopStepDispatch now ready gross s).current_system_state =
      s.current_system_state := by
  simp only [loopStepDispatch]
  rw [if_neg h]
  split <;> rfl

/-- The weight-KF effective innovation covariance of the degenerate
state `wkfTiny` at `dt = 1` is exactly `5e-10`. -/
theorem wkfTiny_effectiveS_eval : wkfEffectiveS wkfTiny 1 = 1/2000000000 := by
  norm_num [wkfEffectiveS, wkfPredict, wkfTiny, baseWKF]

/-- The single-channel remaining-time function equals its closed form. -/
theorem calculate_specific_remaining_time_eq (w t f u : ℚ) :
    calculate_specific_remaining_time w t f u = remTimeSingleSpec w t f u := by
  simp only [calculate_specific_remaining_time, remTimeSingleSpec]
  by_cases h1 : w - t ≤ 1/100
  · rw [if_pos h1, if_pos h1]
  · rw [if_neg h1, if_neg h1]
    by_cases h2 : f > 1/100000
    · rw [if_pos h2, if_pos h2]
      have hpos : (w - t) / f > 0 := div_pos (by linarith) (by linarith)
      rw [if_neg (not_lt.mpr (le_of_lt hpos))]
      by_cases h3 : (w - t) / f > 999999
      · rw [if_pos h3, min_eq_right (by linarith)]
      · rw [if_neg h3, min_eq_left (by linarith)]
    · rw [if_neg h2, if_neg h2]

/-- The fused remaining-time estimate equals its closed form. -/
theorem calculateRemainingTime_fused_eq (s : Sys) :
    (calculateRemainingTime s).remaining_time_s =
      remTimeFusedSpec s.fused_remaining_weight_g s.target_empty_weight_g
        s.fused_flow_rate_gps := by
  simp only [calculateRemainingTime, remTimeFusedSpec]
  generalize s.fused_remaining_weight_g - s.target_empty_weight_g = a
  generalize s.fused_flow_rate_gps = fl
  have hmax : max (0:ℚ) a = if a < 0 then 0 else a := by
    rw [max_def]; split_ifs <;> first | rfl | linarith
  rw [hmax]
  have hw : (0:ℚ) ≤ (if a < 0 then (0:ℚ) else a) := by
    split_ifs with h
    · exact le_refl 0
    · exact le_of_not_lt h
  by_cases hf : fl > 1/100000
  · rw [if_pos hf, if_pos hf]
    have hbase : (0:ℚ) ≤ (if a < 0 then (0:ℚ) else a) / fl :=
      div_nonneg hw (by linarith)
    rw [if_neg (not_lt.mpr hbase)]
    by_cases hc : (if a < 0 then (0:ℚ) else a) / fl > 999999
    · rw [if_pos hc, min_eq_right (by linarith)]
    · rw [if_neg hc, min_eq_left (by linarith)]
  · rw [if_neg hf, if_neg hf]
    by_cases hsmall : (if a < 0 then (0:ℚ) else a) ≤ 1/100
    · rw [if_pos hsmall]
      norm_num
    · rw [if_neg hsmall]
      norm_num

/-! ### Claim theorems -/

set_option maxRecDepth 20000

/-- Claim C1. The command `SET_TOTAL_VOLUME:<float_ml>` is supposed to
set `total_volume_ml` for any positive value, but the handler compares
only the 16-character prefix (without the colon) and parses from offset
16, which is the colon itself, so `atof` yields 0 and the well-formed
command `SET_TOTAL_VOLUME:250.0` is rejected with
`ERROR:INVALID_VOLUME` and leaves the state untouched, even though the
requested 250 mL is positive. -/
theorem claim_C1_set_total_volume_eval :
    (onWebSocketTextCommand 0 "SET_TOTAL_VOLUME:250.0" baseSys).snd =
      "ERROR:INVALID_VOLUME" ∧
    (onWebSocketTextCommand 0 "SET_TOTAL_VOLUME:250.0" baseSys).fst = baseSys ∧
    atofQ ("SET_TOTAL_VOLUME:250.0".toList.drop 16) = 0 ∧
    ((250 : ℚ) > 0) := by
  refine ⟨?_, ?_, ?_, by norm_num⟩ <;>
    simp +decide [onWebSocketTextCommand, atofQ, parseDigits, List.dropWhile]

/-- Claim C2. The no-drop stall transition fires only in `NORMAL` (in
particular it is paused during `FAST_CONVERGENCE`): in any other state
`checkInfusionAbnormality` is the identity; in `NORMAL`, once the 10 s
check interval has elapsed and the last drip is at least 10 s old, the
state becomes `INFUSION_ERROR` and the auto-clamp flag is set. -/
theorem claim_C2_stall_detection :
    (∀ (now : Nat) (s : Sys), s.current_system_state ≠ NORMAL →
      checkInfusionAbnormality now s = s) ∧
    (∀ (now : Nat) (s : Sys), s.current_system_state = NORMAL →
      u32sub now s.last_abnormality_check_time_ms ≥ ABNORMALITY_CHECK_INTERVAL_MS →
      u32sub now s.ring.last_drip_detected_time_ms ≥ NO_DRIP_TIMEOUT_MS →
      (checkInfusionAbnormality now s).current_system_state = INFUSION_ERROR ∧
      (checkInfusionAbnormality now s).auto_clamp = true ∧
      (checkInfusionAbnormality now s).infusion_abnormal = true) := by
  constructor
  · intro now s h
    unfold checkInfusionAbnormality
    rw [if_pos h]
  · intro now s hst hchk hdrip
    unfold checkInfusionAbnormality
    rw [if_neg (by simp [hst]), if_pos hchk, if_pos hdrip]
    exact ⟨rfl, rfl, rfl⟩

/-- Witness for claim C2: in `FAST_CONVERGENCE` the check is a no-op; in
`NORMAL`, 20 s after the last drip and the last check, the state becomes
`INFUSION_ERROR`. -/
theorem claim_C2_witness :
    checkInfusionAbnormality 5 sysFC = sysFC ∧
    (checkInfusionAbnormality 20000 sysNormal).current_system_state =
      INFUSION_ERROR := by
  constructor
  · exact claim_C2_stall_detection.1 5 sysFC (by decide)
  · exact (claim_C2_stall_detection.2 20000 sysNormal rfl (by decide) (by decide)).1

/-- Claim C3. Reinitialization rejects a NaN/Inf reading, a tared value
of magnitude above 5000 g, or a liquid mass of at most 10 g, entering
`INIT_ERROR` and incrementing the persistent error counter; three
consecutive failures leave the counter at the threshold of 3 with
the system in `INIT_ERROR`; and in `INIT_ERROR` the main loop never
leaves that state on its own (no button activity means no transition),
so the lock persists until an operator intervenes. -/
theorem claim_C3_reinit_validation :
    (∀ (gross : Reading) (now : Nat) (s : Sys),
      (gross.nan ∨ gross.inf ∨ |gross.val - TOTAL_TARE_G| > 5000 ∨
        gross.val - TOTAL_TARE_G ≤ 10) →
      (performSystemReinitialization true gross now s).current_system_state =
        INIT_ERROR ∧
      (performSystemReinitialization true gross now s).reinit_error_count =
        s.reinit_error_count + 1) ∧
    (∀ (g1 g2 g3 : Reading) (n1 n2 n3 : Nat) (s : Sys),
      (g1.nan ∨ g1.inf ∨ |g1.val - TOTAL_TARE_G| > 5000 ∨
        g1.val - TOTAL_TARE_G ≤ 10) →
      (g2.nan ∨ g2.inf ∨ |g2.val - TOTAL_TARE_G| > 5000 ∨
        g2.val - TOTAL_TARE_G ≤ 10) →
      (g3.nan ∨ g3.inf ∨ |g3.val - TOTAL_TARE_G| > 5000 ∨
        g3.val - TOTAL_TARE_G ≤ 10) →
      s.reinit_error_count = 0 →
      (performSystemReinitialization true g3 n3
        (performSystemReinitialization true g2 n2
          (performSystemReinitialization true g1 n1 s))).current_system_state =
        INIT_ERROR ∧
      (performSystemReinitialization true g3 n3
        (performSystemReinitialization true g2 n2
          (performSystemReinitialization true g1 n1 s))).reinit_error_count =
        REINIT_ERROR_THRESHOLD) ∧
    (∀ (now : Nat) (ready : Bool) (gross : Reading) (s : Sys),
      s.current_system_state = INIT_ERROR →
      s.abnormality_button_is_pressed = false →
      (loopStep now true true ready gross s).current_system_state = INIT_ERROR) := by
  refine ⟨fun gross now s h => reinit_reject_aux gross now s h,
    fun g1 g2 g3 n1 n2 n3 s h1 h2 h3 hc => ?_, fun now ready gross s hst hp => ?_⟩
  · obtain ⟨a1, b1⟩ := reinit_reject_aux g1 n1 s h1
    obtain ⟨a2, b2⟩ := reinit_reject_aux g2 n2 _ h2
    obtain ⟨a3, b3⟩ := reinit_reject_aux g3 n3 _ h3
    refine ⟨a3, ?_⟩
    rw [b3, b2, b1, hc]
    rfl
  · unfold loopStep handleButtonInputs
    rw [init_button_idle_aux now ready gross s]
    have hp2 : ({ s with last_init_button_state := true } : Sys
      ).abnormality_button_is_pressed = false := hp
    rw [reset_button_idle_aux now ready gross _ hp2]
    have hm := (motor_frame_aux now { s with last_init_button_state := true }).1
    have hms : (handleMotor now ({ s with last_init_button_state := true
      } : Sys)).current_system_state = INIT_ERROR := by rw [hm]; exact hst
    rw [supervisor_skip_aux now _ (by rw [hms]; decide) (by rw [hms]; decide)]
    rw [dispatch_state_aux now ready gross _ (by rw [hms]; decide)]
    exact hms

/-- Witness for claim C3: the tared reading 0 − 72 = −72 g is rejected
(liquid mass ≤ 10 g), sending the boot state to `INIT_ERROR` with the
counter at 1 after one failure and at 3 after three; and one pass of the
loop with no buttons pressed keeps `INIT_ERROR`. -/
theorem claim_C3_witness :
    (performSystemReinitialization true badReading 0 baseSys).current_system_state =
      INIT_ERROR ∧
    (performSystemReinitialization true badReading 0
      (performSystemReinitialization true badReading 0
        (performSystemReinitialization true badReading 0
          baseSys))).reinit_error_count = REINIT_ERROR_THRESHOLD ∧
    (loopStep 7 true true true badReading sysInitError).current_system_state =
      INIT_ERROR := by
  have hbad : badReading.nan ∨ badReading.inf ∨
      |badReading.val - TOTAL_TARE_G| > 5000 ∨ badReading.val - TOTAL_TARE_G ≤ 10 :=
    Or.inr (Or.inr (Or.inr (by norm_num [badReading, TOTAL_TARE_G])))
  exact ⟨(claim_C3_reinit_validation.1 badReading 0 baseSys hbad).1,
    (claim_C3_reinit_validation.2.1 badReading badReading badReading 0 0 0 baseSys
      hbad hbad hbad rfl).2,
    claim_C3_reinit_validation.2.2 7 true badReading sysInitError rfl rfl⟩

/-- Claim C4. In `NORMAL` with the initial weight set, a fused remaining
mass of at most `target_empty + 1` g makes `handleDataFusion` transition
the system to `COMPLETED` and engage the auto clamp. -/
theorem claim_C4_completion (s : Sys) (now : Nat) (dt : ℚ)
    (hset : s.system_initial_weight_set = true)
    (hst : s.current_system_state = NORMAL)
    (hrem : s.fused_remaining_weight_g ≤ s.target_empty_weight_g + 1) :
    (handleDataFusion now dt s).current_system_state = COMPLETED ∧
    (handleDataFusion now dt s).auto_clamp = true := by
  unfold handleDataFusion
  have c := handleDataFusionCompletion_fires (handleDataFusionRemainingDrip
      (handleWpdLongCalibration now (handleDataFusionProgress s)))
    (by rw [(handleDataFusionRemainingDrip_frame _).2.2.1,
            (handleWpdLongCalibration_frame _ _).2.2.1]; exact hset)
    (by rw [(handleDataFusionRemainingDrip_frame _).1,
            (handleWpdLongCalibration_frame _ _).1]; exact hst)
    (by rw [(handleDataFusionRemainingDrip_frame _).2.2.2.1,
            (handleDataFusionRemainingDrip_frame _).2.2.2.2,
            (handleWpdLongCalibration_frame _ _).2.2.2.1,
            (handleWpdLongCalibration_frame _ _).2.2.2.2]; exact hrem)
  exact ⟨by rw [(calculateRemainingTime_frame _).1,
               (handleDataFusionFuse_frame _ _).1, c.1],
         by rw [(calculateRemainingTime_frame _).2.1,
               (handleDataFusionFuse_frame _ _).2, c.2]⟩

/-- Witness for claim C4: in `NORMAL` with the initial weight set and
0 g remaining against a 0 g target, one fusion tick completes the
infusion and clamps. -/
theorem claim_C4_witness :
    (handleDataFusion 0 1 sysNormalInitialSet).current_system_state = COMPLETED ∧
    (handleDataFusion 0 1 sysNormalInitialSet).auto_clamp = true :=
  claim_C4_completion sysNormalInitialSet 0 1 rfl rfl (by norm_num [sysNormalInitialSet, baseSys])

/-- Claim C5. `DripKalmanFilter::init` always leaves the WPD estimate in
[0.04, 0.06]; `calibrateWpdByTotal` keeps it there (every updating path
ends in the hard clamp, every rejecting path leaves the estimate
unchanged); and the published fused flow and fused remaining mass coming
out of `handleDataFusion` are always non-negative. -/
theorem claim_C5_invariants :
    (∀ (f : DKF) (r w0 : ℚ) (dpm : ℤ) (dens : ℚ),
      1/25 ≤ (dkfInit f r w0 dpm dens).wpd ∧ (dkfInit f r w0 dpm dens).wpd ≤ 3/50) ∧
    (∀ (f : DKF) (w : ℚ), 1/25 ≤ f.wpd → f.wpd ≤ 3/50 →
      1/25 ≤ (calibrateWpdByTotal f w).wpd ∧ (calibrateWpdByTotal f w).wpd ≤ 3/50) ∧
    (∀ (now : Nat) (dt : ℚ) (s : Sys),
      (handleDataFusion now dt s).fused_flow_rate_gps ≥ 0 ∧
      (handleDataFusion now dt s).fused_remaining_weight_g ≥ 0) := by
  refine ⟨fun f r w0 dpm dens => ?_, fun f w h1 h2 => ?_, fun now dt s => ?_⟩
  · simp only [dkfInit]
    split_ifs <;> constructor <;> linarith
  · simp only [calibrateWpdByTotal]
    split_ifs <;> first
      | exact ⟨h1, h2⟩
      | (constructor <;> linarith)
  · have hfuse : ∀ (d : ℚ) (t : Sys),
        (handleDataFusionFuse d t).fused_flow_rate_gps ≥ 0 ∧
        (handleDataFusionFuse d t).fused_remaining_weight_g ≥ 0 := by
      intro d t
      constructor
      · simp only [handleDataFusionFuse]
        split
        · norm_num
        · next h => exact le_of_not_lt h
      · simp only [handleDataFusionFuse]
        split
        · norm_num
        · next h => exact le_of_not_lt h
    unfold handleDataFusion
    refine ⟨?_, ?_⟩
    · rw [(calculateRemainingTime_frame _).2.2.1]; exact (hfuse _ _).1
    · rw [(calculateRemainingTime_frame _).2.2.2]; exact (hfuse _ _).2

/-- Witness for claim C5: the boot drip filter has WPD 0.05, which stays
in bounds through a calibrate call and through `init`; a fusion tick
from the boot state publishes non-negative fused values. -/
theorem claim_C5_witness :
    (1/25 ≤ (calibrateWpdByTotal baseDKF 0).wpd ∧
      (calibrateWpdByTotal baseDKF 0).wpd ≤ 3/50) ∧
    (1/25 ≤ (dkfInit baseDKF 0 (-1) 20 1).wpd ∧
      (dkfInit baseDKF 0 (-1) 20 1).wpd ≤ 3/50) ∧
    ((handleDataFusion 0 1 baseSys).fused_flow_rate_gps ≥ 0 ∧
      (handleDataFusion 0 1 baseSys).fused_remaining_weight_g ≥ 0) :=
  ⟨claim_C5_invariants.2.1 baseDKF 0 (by norm_num [baseDKF]) (by norm_num [baseDKF]),
   claim_C5_invariants.1 baseDKF 0 (-1) 20 1,
   claim_C5_invariants.2.2 0 1 baseSys⟩

/-- Counterexample for claim C6. With 0.005 g above the target and a
flow of 1e-4 g/s (above the 1e-5 cutoff), the code returns 0 while the
claimed formula `max(0, (mass − target)/flow)` gives 50 s; and with zero
flow and 100 g remaining the fused estimate is the sentinel 999999 s,
not approximately 88888 s. -/
theorem claim_C6_counterexample :
    calculate_specific_remaining_time (1/200) 0 (1/10000) 88888 = 0 ∧
    max 0 (((1/200 : ℚ) - 0) / (1/10000)) = 50 ∧
    (calculateRemainingTime sysFlowZero).remaining_time_s = 999999 ∧
    ((999999 : ℚ) ≠ 88888) := by
  refine ⟨by norm_num [calculate_specific_remaining_time], by norm_num, ?_, by norm_num⟩
  rw [calculateRemainingTime_fused_eq]
  norm_num [remTimeFusedSpec, sysFlowZero, baseSys]

/-- Claim C6 (amended). Each tick, the four single-channel remaining
times equal `remTimeSingleSpec` with sentinel 88888 (0 when at most
0.01 g above target; quotient clamped to 999999 when the flow exceeds
1e-5; sentinel otherwise), and the fused remaining time equals
`remTimeFusedSpec` (same shape over `max 0 (rem − target)`, but with
sentinel 999999). -/
theorem claim_C6_remaining_times_amended :
    (∀ (w t f u : ℚ),
      calculate_specific_remaining_time w t f u = remTimeSingleSpec w t f u) ∧
    (∀ s : Sys,
      (calculateRemainingTime s).remaining_time_s =
        remTimeFusedSpec s.fused_remaining_weight_g s.target_empty_weight_g
          s.fused_flow_rate_gps ∧
      (calculateRemainingTime s).remaining_time_raw_weight_s =
        remTimeSingleSpec s.raw_weight_g s.target_empty_weight_g
          s.raw_flow_weight_gps 88888 ∧
      (calculateRemainingTime s).remaining_time_filt_weight_s =
        remTimeSingleSpec s.filt_weight_g s.target_empty_weight_g
          s.flow_weight_gps 88888 ∧
      (calculateRemainingTime s).remaining_time_raw_drip_s =
        remTimeSingleSpec s.remaining_weight_drip_calc_g s.target_empty_weight_g
          s.raw_flow_drip_gps 88888 ∧
      (calculateRemainingTime s).remaining_time_filt_drip_s =
        remTimeSingleSpec s.remaining_weight_drip_calc_g s.target_empty_weight_g
          s.flow_drip_gps 88888) := by
  refine ⟨calculate_specific_remaining_time_eq, fun s => ?_⟩
  exact ⟨calculateRemainingTime_fused_eq s,
    calculate_specific_remaining_time_eq _ _ _ _,
    calculate_specific_remaining_time_eq _ _ _ _,
    calculate_specific_remaining_time_eq _ _ _ _,
    calculate_specific_remaining_time_eq _ _ _ _⟩

/-- Counterexample for claim C7. The weight filter replaces its
innovation covariance only when it is exactly zero, so a state with zero
covariance, zero process noise and `R = 5e-10` yields a Kalman-gain
divisor of magnitude below 1e-9, refuting the claimed bound for the
weight channel. -/
theorem claim_C7_counterexample :
    ¬ (∀ (f : WKF) (dt : ℚ), dt > 1/1000000 →
        |wkfEffectiveS f dt| ≥ 1/1000000000) := by
  intro h
  have h2 := h wkfTiny 1 (by norm_num)
  rw [wkfTiny_effectiveS_eval, abs_of_nonneg (by norm_num)] at h2
  norm_num at h2

/-- Claim C7 (amended). The two scalar updates of the drip filter (the
drip-rate KF and the WPD KF) replace `S = P + R` by `±1e-9` of matching
sign whenever `|S| < 1e-9`, so their gain divisors always have magnitude
at least 1e-9; the weight KF replaces `S` by `1e-9` only when it is
exactly zero, so its divisor is merely guaranteed nonzero. -/
theorem claim_C7_innovation_floor_amended :
    (∀ (g : DKF) (dt : ℚ), |dkfEffectiveS g dt| ≥ 1/1000000000) ∧
    (∀ g : DKF, |wpdEffectiveS g| ≥ 1/1000000000) ∧
    (∀ (f : WKF) (dt : ℚ), wkfEffectiveS f dt ≠ 0) := by
  refine ⟨fun g dt => ?_, fun g => ?_, fun f dt => ?_⟩
  · simp only [dkfEffectiveS]
    split
    · split
      · exact le_abs_self _
      · rw [abs_neg]; exact le_abs_self _
    · next h => exact not_lt.mp h
  · simp only [wpdEffectiveS]
    split
    · split
      · exact le_abs_self _
      · rw [abs_neg]; exact le_abs_self _
    · next h => exact not_lt.mp h
  · simp only [wkfEffectiveS]
    split
    · norm_num
    · next h => exact h

/-- Counterexample for claim C8. After exactly 20 accepted edges the
ring is full (size 20); one more edge at t = 2100 ms overwrites the
oldest slot but leaves the head in place and clears the full flag, so
the drained contents are `[2100]` alone — not the 20 timestamps the
claim promises (the 19 older surviving timestamps are unretrievable). -/
theorem claim_C8_counterexample :
    getTimestampQueueSize fullRingExample = 20 ∧
    (drainAll (onWaterDropIsr 2100 fullRingExample)).fst = [2100] ∧
    (drainAll (onWaterDropIsr 2100 fullRingExample)).fst ≠
      [200, 300, 400, 500, 600, 700, 800, 900, 1000, 1100,
       1200, 1300, 1400, 1500, 1600, 1700, 1800, 1900, 2000, 2100] := by
  refine ⟨by decide, by decide, by decide⟩

/-- Claim C8 (amended). A drop edge arriving while the ring is full
never blocks: it overwrites the slot holding the oldest timestamp and
clears the full flag, which collapses the queue to size 1 — afterwards
only the new timestamp is retrievable and the other 19 stored
timestamps are lost. -/
theorem claim_C8_ring_overflow_amended (r : Ring) (now : Nat)
    (hlen : r.buf.length = 20) (hh : r.head < 20) (ht : r.tail = r.head)
    (hfull : r.full = true) (hdeb : u32sub now r.isr_last_drop_time_ms > 50) :
    (drainAll (onWaterDropIsr now r)).fst = [now] ∧
    getTimestampQueueSize (onWaterDropIsr now r) = 1 := by
  have hnt : (r.head + 1) % 20 ≠ r.head := by omega
  have hpush : onWaterDropIsr now r =
      { r with buf := r.buf.set r.head now, tail := (r.head + 1) % 20,
               full := false, isr_last_drop_time_ms := now,
               last_drip_detected_time_ms := now } := by
    simp only [onWaterDropIsr, MAX_TIMESTAMP_QUEUE_SIZE]
    rw [if_pos hdeb, ht, if_pos (Or.inl hnt)]
    simp [decide_eq_false hnt]
  have hgetD2 : (r.buf.set r.head now)[r.head]?.getD 0 = now := by
    rw [List.getElem?_set_eq_of_lt now (show r.head < r.buf.length by omega)]
    rfl
  constructor
  · rw [hpush]
    unfold drainAll drainAux
    rw [getNextDripTimestamp]
    simp only [MAX_TIMESTAMP_QUEUE_SIZE]
    rw [if_neg (by
      intro hc
      exact hnt hc.1.symm)]
    simp only []
    unfold drainAux
    rw [getNextDripTimestamp]
    rw [if_pos (by constructor <;> simp)]
    simp [hgetD2]
  · rw [hpush]
    unfold getTimestampQueueSize MAX_TIMESTAMP_QUEUE_SIZE
    rw [if_neg (by simp)]
    simp only []
    omega

/-- Witness for claim C8 (amended): pushing a 21st edge into the
concrete full ring leaves exactly the new timestamp retrievable. -/
theorem claim_C8_witness :
    (drainAll (onWaterDropIsr 2100 fullRingExample)).fst = [2100] ∧
    getTimestampQueueSize (onWaterDropIsr 2100 fullRingExample) = 1 :=
  claim_C8_ring_overflow_amended fullRingExample 2100 (by decide) (by decide)
    (by decide) (by decide) (by decide)

/-- Claim C9. With any `dt ≤ 1e-6` s (hence any `dt ≤ 0`), the weight
KF, the drip KF and the fusion stage all skip predict and update: state
and covariance are untouched, and the weight KF returns the current mass
estimate. -/
theorem claim_C9_dt_noop (dt : ℚ) (hdt : dt ≤ 1/1000000) :
    (∀ (f : WKF) (z : ℚ), wkfUpdate f z dt = (f, f.x0)) ∧
    (∀ (g : DKF) (r w : ℚ), dkfUpdate g r dt w = g) ∧
    (∀ (d : DF) (a b c e : ℚ), dfUpdate d a b c e dt = d) := by
  refine ⟨fun f z => ?_, fun g r w => ?_, fun d a b c e => ?_⟩
  · unfold wkfUpdate; rw [if_pos hdt]
  · unfold dkfUpdate; rw [if_pos hdt]
  · unfold dfUpdate; rw [if_pos hdt]

/-- Witness for claim C9: at `dt = 0` every filter update is a no-op on
the boot-time filter states. -/
theorem claim_C9_witness :
    (wkfUpdate baseWKF 5 0 = (baseWKF, baseWKF.x0)) ∧
    (dkfUpdate baseDKF 2 0 7 = baseDKF) ∧
    (dfUpdate baseDF 1 2 3 4 0 = baseDF) := by
  have h := claim_C9_dt_noop 0 (by norm_num)
  exact ⟨h.1 baseWKF 5, h.2.1 baseDKF 2 7, h.2.2 baseDF 1 2 3 4⟩

/-- Claim C10. On a tick in which at most one timestamp is drained from
the ring, `handleDripRate` freezes the whole drop channel: the drip KF
state (including the cumulative drop count and the WPD estimator) and
every published drip-rate/drip-flow value are unchanged, and no WPD
calibration runs. -/
theorem claim_C10_drop_channel_freeze (dt : ℚ) (s : Sys)
    (h : (drainAll s.ring).fst.length ≤ 1) :
    (handleDripRate dt s).drip_kf = s.drip_kf ∧
    (handleDripRate dt s).filt_drip_rate_dps = s.filt_drip_rate_dps ∧
    (handleDripRate dt s).raw_drip_rate_dps = s.raw_drip_rate_dps ∧
    (handleDripRate dt s).flow_drip_gps = s.flow_drip_gps ∧
    (handleDripRate dt s).raw_flow_drip_gps = s.raw_flow_drip_gps ∧
    (handleDripRate dt s).drops_this_drip_cycle = s.drops_this_drip_cycle := by
  refine ⟨?_, ?_, ?_, ?_, ?_, ?_⟩
  all_goals
    simp only [handleDripRate]
    rw [if_pos h]
    split <;> rfl

/-- Witness for claim C10: draining the empty boot ring yields no
timestamps and the drip channel is untouched by the tick. -/
theorem claim_C10_witness :
    (drainAll baseSys.ring).fst.length ≤ 1 ∧
    (handleDripRate 1 baseSys).drip_kf = baseSys.drip_kf ∧
    (handleDripRate 1 baseSys).filt_drip_rate_dps = baseSys.filt_drip_rate_dps := by
  have h : (drainAll baseSys.ring).fst.length ≤ 1 := by decide
  have h2 := claim_C10_drop_channel_freeze 1 baseSys h
  exact ⟨h, h2.1, h2.2.1⟩

end FusionFlow
